import Mathlib

/-!
A verification development for the AquaTrace marine-species identification
backend (`backend/app.py`, `backend/models.py`, `backend/vision_api_fallback.py`).

The Python code is shallowly embedded: pure helpers become Lean functions,
the document store becomes an explicit `Store` value threaded through the
request handlers, Python floats become rationals (only order comparisons and
exact arithmetic on them matter to the properties below), Python exceptions
become `Except PyErr`, and the three external services (the local Keras
model, the Cloud Vision call, the Gemini call) become oracle fields of an
environment record, so that every theorem quantifies over everything those
services could return.
-/

/-- A Python exception, carrying the text `str(e)` would produce. -/
structure PyErr where
  msg : String
deriving DecidableEq, Repr

/-- Characterwise lower-casing, the effect of Python `s.lower()` on the
ASCII strings this code handles. Defined by structural recursion over the
character list so the kernel can evaluate it. -/
def pyLower (s : String) : String :=
  String.mk (s.data.map Char.toLower)

/-- Python `s.replace('_', ' ')`: a single-character pattern and replacement,
so it is the characterwise substitution. -/
def pyReplaceUnderscore (s : String) : String :=
  String.mk (s.data.map (fun c => if c = '_' then ' ' else c))

/-- The key normalisation both sides of the comparison in
`get_animal_details` use: `key.lower().replace('_', ' ')`. -/
def pyNormalize (s : String) : String :=
  pyReplaceUnderscore (pyLower s)

/-- `needle` is a prefix of `haystack` (on character lists). -/
def prefixChars : List Char -> List Char -> Bool
  | [], _ => true
  | _ :: _, [] => false
  | a :: as, b :: bs => a = b && prefixChars as bs

/-- `needle` occurs as a contiguous substring of `haystack`. -/
def containsChars (needle : List Char) : List Char -> Bool
  | [] => needle.isEmpty
  | c :: rest => prefixChars needle (c :: rest) || containsChars needle rest

/-- Python's substring test `needle in haystack`. -/
def pyIn (needle haystack : String) : Bool :=
  containsChars needle.data haystack.data

/-- Split a character list on a separator character; like Python `str.split`
with a one-character separator, empty pieces kept. -/
def splitChar (sep : Char) : List Char -> List (List Char)
  | [] => [[]]
  | c :: rest =>
    let r := splitChar sep rest
    if c = sep then [] :: r
    else
      match r with
      | [] => [[c]]
      | w :: ws => (c :: w) :: ws

/-- Capitalise one word: first character upper-cased, the rest lower-cased. -/
def titleWord : List Char -> List Char
  | [] => []
  | c :: rest => c.toUpper :: rest.map Char.toLower

/-- Join character-list words with single spaces. -/
def joinSpace : List (List Char) -> List Char
  | [] => []
  | [w] => w
  | w :: ws => w ++ ' ' :: joinSpace ws

/-- Python `str.title` on the space-separated species keys
`vision_api_fallback.py` applies it to. -/
def pyTitle (s : String) : String :=
  String.mk (joinSpace ((splitChar ' ' s.data).map titleWord))

/-- Python `round(x, 1)`. Tie-breaking (Python rounds half to even on binary
floats) differs from `round` at exact ties only; no property below evaluates
at a tie. -/
def pyRound1 (q : Rat) : Rat :=
  ((round (q * 10) : Int) : Rat) / 10

/-- Python truthiness of an optional float (`None` and `0.0` are falsy). -/
def pyTruthy (o : Option Rat) : Bool :=
  match o with
  | none => false
  | some x => decide (x != 0)

/-- One entry of the `animal_database` dictionary in `get_animal_details`
(`backend/app.py`). The `name` key is present in some entries and absent in
others, hence `Option`. -/
structure AnimalRecord where
  name : Option String
  scientific_name : String
  facts : String
  endangered_status : String
  fun_fact : String
  habitat : String
  diet : String
  size : String
  threats : String
  population_trend : String
deriving DecidableEq, Repr

/-- The record `get_animal_details` returns: the entry's fields with the
`name` key always filled in. -/
structure AnimalDetails where
  name : String
  scientific_name : String
  facts : String
  endangered_status : String
  fun_fact : String
  habitat : String
  diet : String
  size : String
  threats : String
  population_trend : String
deriving DecidableEq, Repr

/-- The `animal_database` literal of `get_animal_details`, in source order.
The Python dict literal repeats the keys `"sharks"` and `"seahorse"` with
byte-identical values, so this association list searched front-to-back
returns exactly what the Python dict (which collapses the duplicates) holds
at every key. -/
def animal_database : List (String × AnimalRecord) := [
  ("angelfish",
   { name := none,
     scientific_name := "Pomacanthidae",
     facts := "Angelfish are colorful marine fish known for their distinctive flat, disc-shaped bodies and vibrant patterns.",
     endangered_status := "Least Concern to Vulnerable",
     fun_fact := "Angelfish can change their colors and patterns as they mature!",
     habitat := "Coral reefs in tropical waters",
     diet := "Algae, small invertebrates, and sponges",
     size := "7-60cm depending on species",
     threats := "Coral reef destruction, aquarium trade",
     population_trend := "Stable to declining" }),
  ("clownfish",
   { name := none,
     scientific_name := "Amphiprioninae",
     facts := "Clownfish live in symbiosis with sea anemones, protected by a special mucus coating.",
     endangered_status := "Least Concern",
     fun_fact := "All clownfish are born male and can change to female when needed!",
     habitat := "Coral reefs and anemones in Indo-Pacific",
     diet := "Algae, zooplankton, and anemone tentacles",
     size := "10-18cm",
     threats := "Coral bleaching, aquarium trade",
     population_trend := "Stable" }),
  ("sharks",
   { name := some "Sharks",
     scientific_name := "Selachimorpha",
     facts := "Sharks are apex predators with cartilaginous skeletons and multiple rows of teeth.",
     endangered_status := "Many species threatened",
     fun_fact := "Sharks have existed for over 400 million years!",
     habitat := "All ocean environments worldwide",
     diet := "Fish, marine mammals, plankton",
     size := "20cm to 12m depending on species",
     threats := "Overfishing, finning, bycatch",
     population_trend := "Declining globally" }),
  ("sea turtle",
   { name := some "Sea Turtle",
     scientific_name := "Chelonioidea",
     facts := "Sea turtles are ancient marine reptiles that navigate using Earth's magnetic field.",
     endangered_status := "Most species endangered",
     fun_fact := "Sea turtles return to the same beach where they were born to nest!",
     habitat := "Oceans worldwide, nesting on beaches",
     diet := "Jellyfish, seagrass, algae, crustaceans",
     size := "60cm to 2m shell length",
     threats := "Plastic pollution, fishing nets, beach development",
     population_trend := "Declining globally" }),
  ("Dolphin",
   { name := some "Dolphin",
     scientific_name := "Delphinidae",
     facts := "Dolphins are highly intelligent marine mammals with complex social structures.",
     endangered_status := "Varies by species",
     fun_fact := "Dolphins have names for each other using unique whistle signatures!",
     habitat := "Oceans and some rivers worldwide",
     diet := "Fish, squid, and crustaceans",
     size := "1.2-9m depending on species",
     threats := "Fishing nets, pollution, boat strikes",
     population_trend := "Varies by species" }),
  ("octopus",
   { name := some "Octopus",
     scientific_name := "Octopoda",
     facts := "Octopuses are intelligent cephalopods with eight arms and three hearts.",
     endangered_status := "Most species least concern",
     fun_fact := "Octopuses can change color and texture instantly to camouflage!",
     habitat := "Ocean floors worldwide",
     diet := "Crabs, shrimp, fish, and mollusks",
     size := "5cm to 9m arm span",
     threats := "Overfishing, habitat destruction",
     population_trend := "Generally stable" }),
  ("jellyfish",
   { name := some "Jellyfish",
     scientific_name := "Cnidaria",
     facts := "Jellyfish are ancient creatures composed of 95% water with no brain or heart.",
     endangered_status := "Most species stable",
     fun_fact := "Some jellyfish species are immortal and can reverse their aging process!",
     habitat := "All ocean environments",
     diet := "Plankton, small fish, and other jellyfish",
     size := "1mm to 2m bell diameter",
     threats := "Climate change, pollution",
     population_trend := "Many species increasing" }),
  ("seahorse",
   { name := some "Seahorse",
     scientific_name := "Hippocampus",
     facts := "Seahorses are unique fish where males carry and give birth to the young.",
     endangered_status := "Many species vulnerable",
     fun_fact := "Seahorses mate for life and perform elaborate courtship dances!",
     habitat := "Shallow coastal waters with seagrass",
     diet := "Small crustaceans and plankton",
     size := "1.5-35cm",
     threats := "Habitat loss, traditional medicine trade",
     population_trend := "Declining" }),
  ("pufferfish",
   { name := some "Pufferfish",
     scientific_name := "Tetraodontidae",
     facts := "Pufferfish can inflate their bodies and contain potent neurotoxins.",
     endangered_status := "Most species stable",
     fun_fact := "Some pufferfish create intricate sand circles to attract mates!",
     habitat := "Tropical and subtropical waters",
     diet := "Algae, invertebrates, and small fish",
     size := "2.5cm to 1.2m",
     threats := "Overfishing, habitat destruction",
     population_trend := "Generally stable" }),
  ("ray",
   { name := some "Rays",
     scientific_name := "Batoidea",
     facts := "Rays are flattened cartilaginous fish related to sharks.",
     endangered_status := "Many species threatened",
     fun_fact := "Manta rays have the largest brain-to-body ratio of any fish!",
     habitat := "Ocean floors and open water",
     diet := "Plankton, small fish, mollusks",
     size := "10cm to 9m wingspan",
     threats := "Overfishing, bycatch, habitat loss",
     population_trend := "Declining" }),
  ("clams",
   { name := some "Clams",
     scientific_name := "Bivalvia",
     facts := "Clams are filter-feeding marine bivalve mollusks that live in sand or mud.",
     endangered_status := "Least Concern",
     fun_fact := "The giant clam can live for over 100 years!",
     habitat := "Benthic zones of oceans and freshwater",
     diet := "Phytoplankton and organic particles",
     size := "Up to 1.2m (giant clam)",
     threats := "Over-harvesting, ocean acidification",
     population_trend := "Stable" }),
  ("corals",
   { name := some "Corals",
     scientific_name := "Anthozoa",
     facts := "Corals are marine invertebrates that live in colonies and form the foundation of coral reefs.",
     endangered_status := "Many species are threatened",
     fun_fact := "Corals are actually animals, not plants!",
     habitat := "Tropical and subtropical waters",
     diet := "Plankton and photosynthesis from algae",
     size := "Varies widely",
     threats := "Coral bleaching, climate change, pollution",
     population_trend := "Declining" }),
  ("crabs",
   { name := some "Crabs",
     scientific_name := "Brachyura",
     facts := "Crabs are crustaceans with a thick exoskeleton and a single pair of pincers.",
     endangered_status := "Most species least concern",
     fun_fact := "Crabs can walk sideways, but some species can also walk forward and backward!",
     habitat := "Coastal waters, tide pools, and deep sea",
     diet := "Algae, mollusks, worms, other crustaceans",
     size := "1cm to 4m leg span (Japanese spider crab)",
     threats := "Overfishing, habitat destruction",
     population_trend := "Generally stable" }),
  ("eel",
   { name := some "Eel",
     scientific_name := "Anguilliformes",
     facts := "Eels are long, slender fish that can grow to be several meters long.",
     endangered_status := "Varies by species",
     fun_fact := "Some eels can produce electricity to stun their prey!",
     habitat := "Coastal waters, coral reefs, deep sea",
     diet := "Fish, crustaceans, and other invertebrates",
     size := "10cm to 4m",
     threats := "Overfishing, habitat loss",
     population_trend := "Varies by species" }),
  ("fish",
   { name := some "Fish",
     scientific_name := "Vertebrata",
     facts := "Fish are aquatic vertebrates that have gills and fins. They are the most diverse group of vertebrates.",
     endangered_status := "Varies widely by species",
     fun_fact := "There are over 34,000 known species of fish!",
     habitat := "All water environments",
     diet := "Varies widely",
     size := "Varies widely",
     threats := "Overfishing, habitat destruction, pollution",
     population_trend := "Varies widely" }),
  ("jelly fish",
   { name := some "Jellyfish",
     scientific_name := "Cnidaria",
     facts := "Jellyfish are ancient creatures composed of 95% water with no brain or heart.",
     endangered_status := "Most species stable",
     fun_fact := "Some jellyfish species are immortal and can reverse their aging process!",
     habitat := "All ocean environments",
     diet := "Plankton, small fish, and other jellyfish",
     size := "1mm to 2m bell diameter",
     threats := "Climate change, pollution",
     population_trend := "Many species increasing" }),
  ("lobster",
   { name := some "Lobster",
     scientific_name := "Nephropidae",
     facts := "Lobsters are large marine crustaceans with a long body and muscular tail, and a pair of large claws.",
     endangered_status := "Least Concern",
     fun_fact := "Lobsters can live for over 50 years and grow indefinitely!",
     habitat := "Ocean floors in temperate waters",
     diet := "Fish, crustaceans, and mollusks",
     size := "20-60cm",
     threats := "Overfishing",
     population_trend := "Stable" }),
  ("nudibranchs",
   { name := some "Nudibranchs",
     scientific_name := "Nudibranchia",
     facts := "Nudibranchs, or sea slugs, are shell-less marine gastropod mollusks known for their vibrant colors.",
     endangered_status := "Not evaluated",
     fun_fact := "Nudibranchs steal stinging cells from jellyfish and use them for their own defense!",
     habitat := "Ocean floors worldwide",
     diet := "Sponges, anemones, and other nudibranchs",
     size := "5mm to 60cm",
     threats := "Pollution, habitat loss",
     population_trend := "Stable" }),
  ("otter",
   { name := some "Otter",
     scientific_name := "Lutrinae",
     facts := "Otters are carnivorous mammals found in both marine and freshwater environments.",
     endangered_status := "Varies by species",
     fun_fact := "Sea otters use rocks as tools to crack open shellfish!",
     habitat := "Coastal waters and rivers worldwide",
     diet := "Fish, crustaceans, and mollusks",
     size := "60cm to 1.8m",
     threats := "Habitat loss, pollution, hunting",
     population_trend := "Varies by species" }),
  ("penguin",
   { name := some "Penguin",
     scientific_name := "Spheniscidae",
     facts := "Penguins are flightless birds that are highly adapted for life in the water.",
     endangered_status := "Varies by species",
     fun_fact := "Penguins can drink saltwater because they have a special gland to filter out the salt!",
     habitat := "Southern Hemisphere oceans and coastlines",
     diet := "Fish, squid, and krill",
     size := "30cm to 1.2m",
     threats := "Climate change, habitat loss, pollution",
     population_trend := "Varies by species" }),
  ("puffers",
   { name := some "Pufferfish",
     scientific_name := "Tetraodontidae",
     facts := "Pufferfish can inflate their bodies and contain potent neurotoxins.",
     endangered_status := "Most species stable",
     fun_fact := "Some pufferfish create intricate sand circles to attract mates!",
     habitat := "Tropical and subtropical waters",
     diet := "Algae, invertebrates, and small fish",
     size := "2.5cm to 1.2m",
     threats := "Overfishing, habitat destruction",
     population_trend := "Generally stable" }),
  ("sea rays",
   { name := some "Sea Rays",
     scientific_name := "Batoidea",
     facts := "Rays are flattened cartilaginous fish related to sharks.",
     endangered_status := "Many species threatened",
     fun_fact := "Manta rays have the largest brain-to-body ratio of any fish!",
     habitat := "Ocean floors and open water",
     diet := "Plankton, small fish, mollusks",
     size := "10cm to 9m wingspan",
     threats := "Overfishing, bycatch, habitat loss",
     population_trend := "Declining" }),
  ("sea urchins",
   { name := some "Sea Urchins",
     scientific_name := "Echinoidea",
     facts := "Sea urchins are spiny, globular marine echinoderms that live in the seabed.",
     endangered_status := "Most species stable",
     fun_fact := "Sea urchins use their spines for defense, movement, and to trap food!",
     habitat := "Ocean floors worldwide",
     diet := "Algae, small invertebrates, and decaying matter",
     size := "3-10cm diameter",
     threats := "Over-harvesting, pollution",
     population_trend := "Stable" }),
  ("seahorse",
   { name := some "Seahorse",
     scientific_name := "Hippocampus",
     facts := "Seahorses are unique fish where males carry and give birth to the young.",
     endangered_status := "Many species vulnerable",
     fun_fact := "Seahorses mate for life and perform elaborate courtship dances!",
     habitat := "Shallow coastal waters with seagrass",
     diet := "Small crustaceans and plankton",
     size := "1.5-35cm",
     threats := "Habitat loss, traditional medicine trade",
     population_trend := "Declining" }),
  ("sea lion",
   { name := some "Sea Lion",
     scientific_name := "Otariinae",
     facts := "Sea lions are pinnipeds known for their external ear flaps, long front flippers, and the ability to walk on all fours on land.",
     endangered_status := "Most species least concern",
     fun_fact := "Sea lions can bark like dogs and have a very social nature!",
     habitat := "Coastal waters and islands worldwide",
     diet := "Fish, squid, and crustaceans",
     size := "1.5-3m",
     threats := "Fishing gear entanglement, habitat destruction",
     population_trend := "Stable to declining" }),
  ("sharks",
   { name := some "Sharks",
     scientific_name := "Selachimorpha",
     facts := "Sharks are apex predators with cartilaginous skeletons and multiple rows of teeth.",
     endangered_status := "Many species threatened",
     fun_fact := "Sharks have existed for over 400 million years!",
     habitat := "All ocean environments worldwide",
     diet := "Fish, marine mammals, plankton",
     size := "20cm to 12m depending on species",
     threats := "Overfishing, finning, bycatch",
     population_trend := "Declining globally" }),
  ("shrimp",
   { name := some "Shrimp",
     scientific_name := "Pleocyemata",
     facts := "Shrimp are small marine crustaceans that are an important food source for many marine animals.",
     endangered_status := "Least Concern",
     fun_fact := "Some shrimp species can snap their claws so fast it creates a sound louder than a gunshot!",
     habitat := "All water environments",
     diet := "Algae, organic particles, and small invertebrates",
     size := "2-20cm",
     threats := "Overfishing, habitat destruction",
     population_trend := "Stable" }),
  ("squid",
   { name := some "Squid",
     scientific_name := "Teuthida",
     facts := "Squid are cephalopods known for their large eyes, eight arms, two tentacles, and the ability to squirt ink.",
     endangered_status := "Least Concern",
     fun_fact := "Some squid species can fly out of the water for short distances!",
     habitat := "All ocean environments",
     diet := "Fish, crustaceans, and other squid",
     size := "5cm to 13m (giant squid)",
     threats := "Overfishing",
     population_trend := "Stable" }),
  ("starfish",
   { name := some "Starfish",
     scientific_name := "Asteroidea",
     facts := "Starfish are marine invertebrates with radial symmetry, typically having five arms.",
     endangered_status := "Least Concern",
     fun_fact := "Starfish can regenerate lost arms and sometimes even a whole new body!",
     habitat := "Ocean floors worldwide",
     diet := "Mollusks, crustaceans, and other invertebrates",
     size := "2cm to 1m",
     threats := "Habitat destruction, pollution",
     population_trend := "Stable" }),
  ("turtle_tortoise",
   { name := some "Sea Turtle",
     scientific_name := "Chelonioidea",
     facts := "Sea turtles are ancient marine reptiles that navigate using Earth's magnetic field.",
     endangered_status := "Most species endangered",
     fun_fact := "Sea turtles return to the same beach where they were born to nest!",
     habitat := "Oceans worldwide, nesting on beaches",
     diet := "Jellyfish, seagrass, algae, crustaceans",
     size := "60cm to 2m shell length",
     threats := "Plastic pollution, fishing nets, beach development",
     population_trend := "Declining globally" }),
  ("whale",
   { name := some "Whale",
     scientific_name := "Cetacea",
     facts := "Whales are large marine mammals known for their intelligence and complex communication.",
     endangered_status := "Varies by species",
     fun_fact := "Blue whales are the largest animals ever known to have existed!",
     habitat := "All ocean environments worldwide",
     diet := "Krill, plankton, fish, and squid",
     size := "3m to 30m",
     threats := "Whaling, noise pollution, climate change",
     population_trend := "Varies by species" }),
  ("Fish",
   { name := some "Fish",
     scientific_name := "Various",
     facts := "This category covers a wide range of aquatic vertebrates.",
     endangered_status := "Varies widely",
     fun_fact := "There are over 34,000 known species of fish!",
     habitat := "All water environments",
     diet := "Varies widely",
     size := "Varies widely",
     threats := "Overfishing, habitat destruction, pollution",
     population_trend := "Varies widely" }),
  ("Sea Lion",
   { name := some "Sea Lion",
     scientific_name := "Otariinae",
     facts := "Sea lions are pinnipeds known for their external ear flaps, long front flippers, and the ability to walk on all fours on land.",
     endangered_status := "Most species least concern",
     fun_fact := "Sea lions can bark like dogs and have a very social nature!",
     habitat := "Coastal waters and islands worldwide",
     diet := "Fish, squid, and crustaceans",
     size := "1.5-3m",
     threats := "Fishing gear entanglement, habitat destruction",
     population_trend := "Stable to declining" }),
  ("Sea Rays",
   { name := some "Sea Rays",
     scientific_name := "Batoidea",
     facts := "Rays are flattened cartilaginous fish related to sharks.",
     endangered_status := "Many species threatened",
     fun_fact := "Manta rays have the largest brain-to-body ratio of any fish!",
     habitat := "Ocean floors and open water",
     diet := "Plankton, small fish, mollusks",
     size := "10cm to 9m wingspan",
     threats := "Overfishing, bycatch, habitat loss",
     population_trend := "Declining" })
]

/-- The matching step of `get_animal_details`: the first database entry whose
key equals the queried name after lower-casing and underscore/space
normalisation on both sides. -/
def animal_lookup (animal_name : String) : Option (String × AnimalRecord) :=
  animal_database.find? (fun kv => pyNormalize kv.1 == pyNormalize animal_name)

/-- `get_animal_details` (`backend/app.py`): look the species up in
`animal_database`; on a hit return a copy of the entry, filling a missing
`name` key with the queried name verbatim; otherwise return the generic
placeholder record built from the queried name. -/
def get_animal_details (animal_name : String) : AnimalDetails :=
  match animal_lookup animal_name with
  | some (_, d) =>
    { name := d.name.getD animal_name,
      scientific_name := d.scientific_name,
      facts := d.facts,
      endangered_status := d.endangered_status,
      fun_fact := d.fun_fact,
      habitat := d.habitat,
      diet := d.diet,
      size := d.size,
      threats := d.threats,
      population_trend := d.population_trend }
  | none =>
    let display := pyReplaceUnderscore animal_name
    { name := display,
      scientific_name := "Unknown",
      facts := s!"This appears to be a {display}, a marine species found in ocean environments.",
      endangered_status := "Unknown",
      fun_fact := "Marine ecosystems are incredibly diverse with unique adaptations!",
      habitat := "Marine environments",
      diet := "Varies by species",
      size := "Varies by species",
      threats := "Climate change, pollution, overfishing",
      population_trend := "Unknown" }

/-- `SPECIES_NAMES` (`backend/app.py`): the 9 classes of the local model. -/
def SPECIES_NAMES : List String :=
  ["Coral", "Fish", "Jelly Fish", "Lobster", "Penguin", "Seal", "Sharks", "Squid", "Turtle"]

example : (get_animal_details "Sharks").name = "Sharks" := by decide
example : (get_animal_details "Angelfish").name = "Angelfish" := by decide
example : (get_animal_details "angelfish").name = "angelfish" := by decide
example : (get_animal_details "dragON_fish").name = "dragON fish" := by decide
example : pyRound1 92 = 92 := by norm_num [pyRound1]

/-- One object returned by the Vision API's object localization, as the
fallback reads it: a label and a score in `[0, 1]`. -/
structure VisionObject where
  name : String
  score : Rat
deriving DecidableEq, Repr

/-- A parsed JSON object with string values, as `json.loads` produces for the
Gemini reply; looked up by key, raising `KeyError` on a missing key. -/
def PyDict : Type := List (String × String)

/-- Python `d[key]` on a parsed JSON object: the value, or a `KeyError`. -/
def pyGet (d : PyDict) (k : String) : Except PyErr String :=
  match d.find? (fun kv => kv.1 == k) with
  | some kv => Except.ok kv.2
  | none => Except.error ⟨s!"KeyError: {k}"⟩

def marine_keywords : List (String × List String) := [
  ("fish", ["Fish", "Tropical fish", "Marine biology", "Aquarium fish", "Saltwater fish"]),
  ("sharks", ["Shark", "Great white shark", "Tiger shark", "Hammerhead shark"]),
  ("turtle_tortoise", ["Sea turtle", "Turtle", "Marine turtle", "Loggerhead turtle"]),
  ("dolphin", ["Dolphin", "Marine mammal", "Bottlenose dolphin"]),
  ("whale", ["Whale", "Humpback whale", "Blue whale", "Marine mammal"]),
  ("octopus", ["Octopus", "Cephalopod", "Marine invertebrate"]),
  ("jelly fish", ["Jellyfish", "Cnidaria", "Marine invertebrate"]),
  ("seahorse", ["Seahorse", "Marine fish"]),
  ("starfish", ["Starfish", "Sea star", "Echinoderm"]),
  ("crabs", ["Crab", "Crustacean", "Marine arthropod"]),
  ("lobster", ["Lobster", "Crustacean"]),
  ("shrimp", ["Shrimp", "Prawn", "Crustacean"]),
  ("corals", ["Coral", "Coral reef", "Marine organism"]),
  ("sea urchins", ["Sea urchin", "Echinoderm"]),
  ("eel", ["Eel", "Moray eel", "Electric eel"]),
  ("sea rays", ["Ray", "Stingray", "Manta ray", "Skate"]),
  ("seal", ["Seal", "Sea lion", "Marine mammal"]),
  ("penguin", ["Penguin", "Marine bird"]),
  ("puffers", ["Pufferfish", "Blowfish"])
]

/-- The oracle for one run of `identify_marine_species_with_vision_api` and
its Gemini enrichment: whether the Vision client initialises, what the
annotate call yields (a raised exception, or the localized objects — a
non-empty `response.error.message` is folded into the exception case, since
the code raises on it), whether `gemini_model` is configured, and what the
`generate_content` + `json.loads` step yields. -/
structure VisionEnv where
  clientOk : Bool
  annotate : Except PyErr (List VisionObject)
  geminiConfigured : Bool
  geminiReply : Except PyErr PyDict

/-- The placeholder details `get_species_details_from_gemini` returns when
`gemini_model` is not configured. -/
def gemini_unavailable_details (species_name : String) : PyDict :=
  [("scientific_name", "Unknown"),
   ("facts", s!"This appears to be a {species_name}."),
   ("endangered_status", "Unknown"),
   ("fun_fact", s!"Interesting marine species: {species_name}"),
   ("habitat", "Marine environment"),
   ("diet", "Varies by species"),
   ("size", "Varies"),
   ("threats", "Climate change and human activities"),
   ("population_trend", "Unknown")]

/-- The placeholder details `get_species_details_from_gemini` substitutes when
the Gemini call or the JSON parse raises. -/
def gemini_error_details (species_name : String) : PyDict :=
  [("scientific_name", "Unknown"),
   ("facts", s!"This appears to be a {species_name} identified by Vision API."),
   ("endangered_status", "Unknown"),
   ("fun_fact", s!"Marine species: {species_name}"),
   ("habitat", "Marine environment"),
   ("diet", "Varies by species"),
   ("size", "Varies"),
   ("threats", "Climate change and human activities"),
   ("population_trend", "Unknown")]

/-- `get_species_details_from_gemini` (`backend/vision_api_fallback.py`):
without a configured model return the first placeholder; otherwise return the
parsed reply, or the second placeholder if the call or the parse raised. -/
def get_species_details_from_gemini (env : VisionEnv) (species_name : String) : PyDict :=
  if env.geminiConfigured then
    match env.geminiReply with
    | Except.ok d => d
    | Except.error _ => gemini_error_details species_name
  else gemini_unavailable_details species_name

/-- The identification record every branch of the pipeline produces
(`backend/app.py` and `backend/vision_api_fallback.py` build dicts with
exactly these twelve keys). -/
structure SpeciesResult where
  name : String
  scientific_name : String
  confidence : Rat
  facts : String
  endangered_status : String
  fun_fact : String
  habitat : String
  diet : String
  size : String
  threats : String
  population_trend : String
  detection_method : String
deriving DecidableEq, Repr

/-- The keyword scan of `identify_marine_species_with_vision_api` for one
localized object: walk `marine_keywords` in order; for a species whose first
matching keyword occurs (case-insensitively) in the object label, take the
object's score if it beats the best so far. -/
def scanObject (obj : VisionObject) (acc : Option String × Rat) : Option String × Rat :=
  marine_keywords.foldl
    (fun acc sk =>
      match sk.2.find? (fun kw => pyIn (pyLower kw) (pyLower obj.name)) with
      | some _ => if obj.score > acc.2 then (some sk.1, obj.score) else acc
      | none => acc)
    acc

/-- The full scan over all localized objects, starting from no match and a
best confidence of `0`. -/
def bestMarineMatch (objects : List VisionObject) : Option String × Rat :=
  objects.foldl (fun acc obj => scanObject obj acc) (none, 0)

/-- The generic record returned when no object label matches any marine
species keyword. -/
def unknown_species_result : SpeciesResult :=
  { name := "Unknown Marine Species",
    scientific_name := "Unknown",
    confidence := 0,
    facts := "Could not identify a specific marine species in this image using Google Cloud Vision API.",
    endangered_status := "Unknown",
    fun_fact := "Try uploading a clearer image of a marine animal.",
    habitat := "Unknown",
    diet := "Unknown",
    size := "Unknown",
    threats := "Unknown",
    population_trend := "Unknown",
    detection_method := "Google Cloud Vision API" }

/-- The record the `except` clause of
`identify_marine_species_with_vision_api` builds from the caught exception. -/
def vision_error_result (e : PyErr) : SpeciesResult :=
  let m := e.msg
  { name := "Vision API Error",
    scientific_name := "Unknown",
    confidence := 0,
    facts := s!"Google Cloud Vision API error: {m}",
    endangered_status := "Unknown",
    fun_fact := "Please try again or check your Vision API credentials.",
    habitat := "Unknown",
    diet := "Unknown",
    size := "Unknown",
    threats := "Unknown",
    population_trend := "Unknown",
    detection_method := "Google Cloud Vision API (Error)" }

/-- The body of the `try` in `identify_marine_species_with_vision_api`:
initialise the client (raising on failure), annotate the image, scan for the
best marine keyword match, and build the result — enriching through
`get_species_details_from_gemini`, whose reply is indexed by the keys the
result dict needs (a missing key raises here, inside the `try`). -/
def vision_api_try (env : VisionEnv) : Except PyErr SpeciesResult :=
  if env.clientOk then do
    let objects ← env.annotate
    match bestMarineMatch objects with
    | (some best_match, highest_confidence) => do
      let species_name := pyTitle (pyReplaceUnderscore best_match)
      let info := get_species_details_from_gemini env species_name
      let sci ← pyGet info "scientific_name"
      let facts ← pyGet info "facts"
      let endangered ← pyGet info "endangered_status"
      let fun_fact ← pyGet info "fun_fact"
      let habitat ← pyGet info "habitat"
      let diet ← pyGet info "diet"
      let size ← pyGet info "size"
      let threats ← pyGet info "threats"
      let trend ← pyGet info "population_trend"
      pure { name := species_name,
             scientific_name := sci,
             confidence := pyRound1 (highest_confidence * 100),
             facts := facts,
             endangered_status := endangered,
             fun_fact := fun_fact,
             habitat := habitat,
             diet := diet,
             size := size,
             threats := threats,
             population_trend := trend,
             detection_method := "Google Cloud Vision API" }
    | (none, _) => pure unknown_species_result
  else Except.error ⟨"Vision API client initialization failed"⟩

/-- `identify_marine_species_with_vision_api`
(`backend/vision_api_fallback.py`): the `try` body above, with every
exception caught and converted into the `"Vision API Error"` record. The
function therefore never raises. -/
def identify_marine_species_with_vision_api (env : VisionEnv) : SpeciesResult :=
  match vision_api_try env with
  | Except.ok r => r
  | Except.error e => vision_error_result e

/-- The oracle for one run of `identify_species_with_h5` (`backend/app.py`):
whether the global `model` loaded at startup, what the preprocessing plus
`model.predict` step yields for this image — a raised exception, or the pair
of `float(np.max(predictions[0])) * 100` (the confidence percentage) and
`np.argmax(predictions[0])` — whether `VISION_API_AVAILABLE` is set, and the
vision/Gemini oracle. -/
structure PipelineEnv where
  modelLoaded : Bool
  h5Predict : Except PyErr (Rat × Nat)
  visionAvailable : Bool
  vision : VisionEnv

/-- The result dict the high-confidence local branch of
`identify_species_with_h5` builds: the class name at the predicted index,
its reference-table details (`get_animal_details` returns every key, so the
`.get(..., default)` fallbacks in the source are never taken), and
`detection_method = "H5 Model"`. -/
def h5_success_result (confidence : Rat) (idx : Nat) : SpeciesResult :=
  let species_name := SPECIES_NAMES.getD idx ""
  let d := get_animal_details species_name
  { name := d.name,
    scientific_name := d.scientific_name,
    confidence := pyRound1 confidence,
    facts := d.facts,
    endangered_status := d.endangered_status,
    fun_fact := d.fun_fact,
    habitat := d.habitat,
    diet := d.diet,
    size := d.size,
    threats := d.threats,
    population_trend := d.population_trend,
    detection_method := "H5 Model" }

/-- The inner `try` of `identify_species_with_h5` guarding the local model:
preprocess and predict (any exception propagates to this block's `except`);
with confidence strictly above 85 and a class index inside `SPECIES_NAMES`,
return the local result; otherwise call the vision fallback when available
(the source wraps that call in a `try` that re-raises, and the callee never
raises, so the call is direct here), else raise the low-confidence error. -/
def h5_try_block (env : PipelineEnv) : Except PyErr (Option SpeciesResult) := do
  let (confidence, idx) ← env.h5Predict
  if 85 < confidence ∧ idx < SPECIES_NAMES.length then
    pure (some (h5_success_result confidence idx))
  else
    if env.visionAvailable then
      pure (some (identify_marine_species_with_vision_api env.vision))
    else
      Except.error ⟨"Low confidence and Vision API not available"⟩

/-- The fallback section after the local-model block: call the vision
fallback when available (its own `try`'s `except` is dead code because the
callee never raises), else fall through to `None`. -/
def after_h5_fallback (env : PipelineEnv) : Except PyErr (Option SpeciesResult) :=
  if env.visionAvailable then
    pure (some (identify_marine_species_with_vision_api env.vision))
  else
    pure none

/-- The body of the outer `try` of `identify_species_with_h5`: run the local
block when the model is loaded, its `except` clause only printing and
falling through to the fallback section. -/
def identify_species_body (env : PipelineEnv) : Except PyErr (Option SpeciesResult) :=
  if env.modelLoaded then
    match h5_try_block env with
    | Except.ok r => Except.ok r
    | Except.error _ => after_h5_fallback env
  else after_h5_fallback env

/-- `identify_species_with_h5` (`backend/app.py`): the body above inside the
outer `try`, whose `except` clause returns `None`. -/
def identify_species_with_h5 (env : PipelineEnv) : Except PyErr (Option SpeciesResult) :=
  match identify_species_body env with
  | Except.ok v => Except.ok v
  | Except.error _ => Except.ok none

/-- A document of the `users` collection (`backend/models.py`, `User`). Ids
abstract `ObjectId`, timestamps abstract `datetime`. -/
structure UserRec where
  id : Nat
  username : String
  email : String
  password_hash : Option String
  firebase_uid : Option String
  bio : Option String
  created_at : Nat
deriving DecidableEq, Repr

/-- A document of the `uploads` collection (`backend/models.py`, `Upload`). -/
structure UploadRec where
  id : Nat
  filename : String
  species_name : String
  confidence : Rat
  user_id : Nat
  latitude : Option Rat
  longitude : Option Rat
  upload_date : Nat
deriving DecidableEq, Repr

/-- The single `global_stats` document (`backend/models.py`, `GlobalStats`). -/
structure StatsRec where
  total_identifications : Nat
  total_users : Nat
  total_species : Nat
  last_updated : Nat
deriving DecidableEq, Repr

/-- The document store: the three collections, in insertion order (an
`insert_one` appends; `find_one` takes the first match). -/
structure Store where
  users : List UserRec
  uploads : List UploadRec
  stats : Option StatsRec
deriving DecidableEq, Repr

/-- `User.find_by_username`. -/
def find_by_username (st : Store) (username : String) : Option UserRec :=
  st.users.find? (fun u => u.username == username)

/-- `User.find_by_email`. -/
def find_by_email (st : Store) (email : String) : Option UserRec :=
  st.users.find? (fun u => u.email == email)

/-- `User.find_by_id`. -/
def find_by_id (st : Store) (user_id : Nat) : Option UserRec :=
  st.users.find? (fun u => u.id == user_id)

/-- `Upload.find_by_species`: the uploads whose `species_name` equals the
query, in collection order. -/
def find_by_species (st : Store) (species_name : String) : List UploadRec :=
  st.uploads.filter (fun u => u.species_name == species_name)

/-- `Upload.find_by_user_id`: the user's uploads, sorted by `upload_date`
descending (`.sort('upload_date', -1)`). -/
def find_by_user_id (st : Store) (user_id : Nat) : List UploadRec :=
  (st.uploads.filter (fun u => u.user_id == user_id)).mergeSort
    (fun a b => decide (b.upload_date ≤ a.upload_date))

/-- `update_global_stats` (`backend/app.py`): recompute the three counters
from the collections in full and upsert the single stats document
(`total_species` is the number of distinct species names over all uploads). -/
def update_global_stats (st : Store) (now : Nat) : Store :=
  let fresh : StatsRec :=
    { total_identifications := st.uploads.length,
      total_users := st.users.length,
      total_species := ((st.uploads.map (fun u => u.species_name)).dedup).length,
      last_updated := now }
  { st with stats := some fresh }

/-- `ALLOWED_EXTENSIONS` (`backend/app.py`). -/
def ALLOWED_EXTENSIONS : List String :=
  ["png", "jpg", "jpeg", "gif", "bmp", "webp"]

/-- `allowed_file` (`backend/app.py`): the filename contains a dot and the
text after the last dot, lower-cased, is an allowed extension. -/
def allowed_file (filename : String) : Bool :=
  pyIn "." filename &&
    ALLOWED_EXTENSIONS.contains (pyLower (String.mk ((splitChar '.' filename.data).getLastD [])))

/-- The parts of an upload request the handlers read: the `file` field
(absent, or carrying the submitted filename) and, for `/predict_web`, the
parsed optional geolocation form fields. -/
structure UploadRequest where
  file : Option String
  latitudeForm : Option Rat
  longitudeForm : Option Rat

/-- What `/predict` can respond (JSON payloads abstracted to their
distinguishing data). -/
inductive ApiResponse where
  | badRequest (msg : String)
  | unauthorized (msg : String)
  | serverError (msg : String)
  | successNull (userId : Nat) (username : String)
  | success (prediction : SpeciesResult) (image_filename : String) (userId : Nat) (username : String)
deriving DecidableEq, Repr

/-- `/predict` (`backend/app.py`): validate the request, store the file under
a timestamp-prefixed name (`secure_filename` is an external sanitizer,
abstracted to the submitted name; `stamp` is the generated timestamp
prefix), look the session user up, run the pipeline, and either answer
success-with-null-prediction on the sentinel, or persist the upload and
answer with the prediction. No stats update happens on this route. -/
def predict (st : Store) (req : UploadRequest) (sessionUserId : Nat) (stamp : String)
    (now : Nat) (newUploadId : Nat) (penv : PipelineEnv) : Store × ApiResponse :=
  match req.file with
  | none => (st, ApiResponse.badRequest "No file uploaded")
  | some fname =>
    if fname == "" then (st, ApiResponse.badRequest "No file selected")
    else if !(allowed_file fname) then
      (st, ApiResponse.badRequest "Invalid file type. Please upload an image file (PNG, JPG, JPEG, GIF, BMP, WEBP).")
    else
      let filename := stamp ++ fname
      match find_by_id st sessionUserId with
      | none => (st, ApiResponse.unauthorized "User not found")
      | some user =>
        match identify_species_with_h5 penv with
        | Except.error e =>
          let m := e.msg
          (st, ApiResponse.serverError s!"Server error: {m}")
        | Except.ok none => (st, ApiResponse.successNull user.id user.username)
        | Except.ok (some animal) =>
          let upload : UploadRec :=
            { id := newUploadId, filename := filename, species_name := animal.name,
              confidence := animal.confidence, user_id := sessionUserId,
              latitude := none, longitude := none, upload_date := now }
          ({ st with uploads := st.uploads ++ [upload] },
           ApiResponse.success animal filename user.id user.username)

/-- What `/predict_web` can respond. -/
inductive WebResponse where
  | flashRedirect (msg target : String)
  | silentRedirect (target : String)
  | resultPage (prediction : SpeciesResult) (image_filename : String)
deriving DecidableEq, Repr

/-- `/predict_web` (`backend/app.py`): like `/predict` but form-mode — on the
sentinel it silently redirects to the dashboard with no flash message; on a
real result it persists the upload (with the form geolocation), runs
`update_global_stats`, and renders the result page. -/
def predict_web (st : Store) (req : UploadRequest) (sessionUserId : Nat) (stamp : String)
    (now : Nat) (newUploadId : Nat) (penv : PipelineEnv) : Store × WebResponse :=
  match req.file with
  | none => (st, WebResponse.flashRedirect "No file uploaded" "dashboard")
  | some fname =>
    if fname == "" then (st, WebResponse.flashRedirect "No file selected" "dashboard")
    else if !(allowed_file fname) then
      (st, WebResponse.flashRedirect "Invalid file type. Please upload an image file (PNG, JPG, JPEG, GIF, BMP, WEBP)." "dashboard")
    else
      let filename := stamp ++ fname
      match find_by_id st sessionUserId with
      | none => (st, WebResponse.flashRedirect "User not found" "dashboard")
      | some _user =>
        match identify_species_with_h5 penv with
        | Except.error e =>
          let m := e.msg
          (st, WebResponse.flashRedirect s!"Error processing image: {m}" "dashboard")
        | Except.ok none => (st, WebResponse.silentRedirect "dashboard")
        | Except.ok (some animal) =>
          let upload : UploadRec :=
            { id := newUploadId, filename := filename, species_name := animal.name,
              confidence := animal.confidence, user_id := sessionUserId,
              latitude := req.latitudeForm, longitude := req.longitudeForm,
              upload_date := now }
          (update_global_stats { st with uploads := st.uploads ++ [upload] } now,
           WebResponse.resultPage animal filename)

/-- What the POST branch of `/register` can respond. -/
inductive RegisterResponse where
  | failure (msg : String)
  | success
deriving DecidableEq, Repr

/-- The POST branch of `/register` (`backend/app.py`): reject an existing
username, then an existing email, rendering the form again with a flash
message and touching nothing; otherwise insert the new user and redirect to
the login page. -/
def register (st : Store) (username email password_hash : String)
    (newUserId : Nat) (now : Nat) : Store × RegisterResponse :=
  if (find_by_username st username).isSome then
    (st, RegisterResponse.failure "Username already exists")
  else if (find_by_email st email).isSome then
    (st, RegisterResponse.failure "Email already registered")
  else
    let user : UserRec :=
      { id := newUserId, username := username, email := email,
        password_hash := some password_hash, firebase_uid := none, bio := none,
        created_at := now }
    ({ st with users := st.users ++ [user] }, RegisterResponse.success)

/-- One element of the `/api/species_locations` reply. -/
structure LocEntry where
  lat : Rat
  lng : Rat
  species : String
  timestamp : Nat
deriving DecidableEq, Repr

/-- What `/api/species_locations` can respond. -/
inductive LocResponse where
  | badRequest (msg : String)
  | ok (entries : List LocEntry)
deriving DecidableEq, Repr

/-- The entry built for one upload in the `species_locations` comprehension. -/
def locEntry (u : UploadRec) : LocEntry :=
  { lat := u.latitude.getD 0, lng := u.longitude.getD 0,
    species := u.species_name, timestamp := u.upload_date }

/-- `/api/species_locations` (`backend/app.py`): a missing or empty species
parameter is rejected (Python `if not species`); otherwise one entry per
upload of that species whose latitude and longitude are both truthy —
Python truthiness, so `None` and `0.0` coordinates are both skipped. -/
def species_locations (st : Store) (species : Option String) : LocResponse :=
  match species with
  | none => LocResponse.badRequest "Species parameter required"
  | some sp =>
    if sp == "" then LocResponse.badRequest "Species parameter required"
    else
      LocResponse.ok
        (((find_by_species st sp).filter
            (fun u => pyTruthy u.latitude && pyTruthy u.longitude)).map locEntry)

/-- The `uploads` list the dashboard and profile views render: the first 10
elements of `Upload.find_by_user_id`. -/
def dashboard_recent_uploads (st : Store) (user_id : Nat) : List UploadRec :=
  (find_by_user_id st user_id).take 10

/-- Decimal digit characters of `n`, most significant first, by structural
recursion on a fuel argument (`fuel ≥ n` suffices); empty for `n = 0`. -/
def decChars : Nat → Nat → List Char
  | 0, _ => []
  | fuel + 1, n => if n = 0 then [] else decChars fuel (n / 10) ++ [Nat.digitChar (n % 10)]

/-- Python `str(n)` for a natural number: its decimal representation. -/
def natStr (n : Nat) : String :=
  if n = 0 then "0" else String.mk (decChars n n)

/-- The candidate Python `f"{base}_{counter}"` both federated-login routes
build. -/
def suffixed (base : String) (counter : Nat) : String :=
  base ++ "_" ++ natStr counter

/-- `User.find_by_username(...)` used as the collision test of both loops. -/
def username_taken (st : Store) (username : String) : Bool :=
  (find_by_username st username).isSome

/-- The `while` loop of `firebase_login` (`backend/app.py`): keep the fixed
`base_username` and try `base_username_1`, `base_username_2`, … until free.
Structurally embedded with fuel; `users.length + 2` steps provably reach a
free candidate, so the fuel-out branch is dead. -/
def firebase_username_loop (st : Store) (base_username : String) :
    Nat → String → Nat → String
  | 0, username, _ => username
  | fuel + 1, username, counter =>
    if username_taken st username then
      firebase_username_loop st base_username fuel (suffixed base_username counter) (counter + 1)
    else username

/-- The unique-username generation of `firebase_login`: start from the base
name with `counter = 1`. -/
def firebase_unique_username (st : Store) (base_username : String) : String :=
  firebase_username_loop st base_username (st.users.length + 2) base_username 1

/-- The `while` loop of `google_callback` (`backend/app.py`): unlike the
Firebase one it reassigns `base_username` itself each round, so every
collision appends a further suffix to the previously suffixed name.
Structurally embedded with fuel; `users.length + 1` steps provably reach a
free candidate because each round strictly lengthens the name. -/
def google_username_loop (st : Store) : Nat → String → Nat → String
  | 0, base_username, _ => base_username
  | fuel + 1, base_username, counter =>
    if username_taken st base_username then
      google_username_loop st fuel (suffixed base_username counter) (counter + 1)
    else base_username

/-- The unique-username generation of `google_callback`. -/
def google_unique_username (st : Store) (base_username : String) : String :=
  google_username_loop st (st.users.length + 1) base_username 1

/-! ### Concrete fixtures used by counterexamples and witnesses -/

/-- A vision oracle for runs where the fallback is never consulted or fails
at the client-initialisation step. -/
def venvIdle : VisionEnv :=
  { clientOk := false, annotate := Except.error ⟨"unused"⟩,
    geminiConfigured := false, geminiReply := Except.error ⟨"unused"⟩ }

/-- Local model loaded, predicting class 6 (`"Sharks"`) at exactly 85%
confidence, no vision fallback configured. -/
def env_conf85 : PipelineEnv :=
  { modelLoaded := true, h5Predict := Except.ok (85, 6),
    visionAvailable := false, vision := venvIdle }

/-- Local model loaded, predicting class 6 (`"Sharks"`) at 92% confidence,
no vision fallback configured. -/
def env_conf92 : PipelineEnv :=
  { modelLoaded := true, h5Predict := Except.ok (92, 6),
    visionAvailable := false, vision := venvIdle }

/-- C1: for every image (every oracle behaviour), `identify_species_with_h5`
returns `Except.ok` of either a full `SpeciesResult` record — the structure
carrying exactly the twelve result fields — or the sentinel `none`; no
exception escapes its outer `try`. -/
theorem c1_pipeline_never_raises (env : PipelineEnv) :
    ∃ v : Option SpeciesResult, identify_species_with_h5 env = Except.ok v := by
  unfold identify_species_with_h5
  cases identify_species_body env with
  | ok v => exact ⟨v, rfl⟩
  | error e => exact ⟨none, rfl⟩

/-- C2 as stated is false: at confidence exactly 85% (which is `≥ 85%`) with
valid class index 6, the source's strict `confidence > 85` test fails and
the pipeline does not return a local-model result (here, with no fallback
configured, it returns the sentinel); moreover even the high-confidence
local result labels `detection_method` as `"H5 Model"`, not
`"local model"`. -/
theorem c2_counterexample :
    identify_species_with_h5 env_conf85 = Except.ok none ∧
    (identify_species_with_h5 env_conf92).map (fun o => o.map (fun r => r.detection_method))
      = Except.ok (some "H5 Model") ∧
    "H5 Model" ≠ "local model" := by
  refine ⟨rfl, rfl, by decide⟩

/-- C2 amended: whenever the local classifier is loaded and produces
confidence strictly greater than 85% with a predicted index inside the
9-entry class list, the pipeline returns the local-model record (labelled
`detection_method = "H5 Model"`, the code's marker for the local model), and
the outcome is independent of the vision fallback's availability and of
anything the vision or Gemini oracles would do — the cloud fallback is never
consulted. At confidence exactly 85% the strict test fails and the fallback
chain runs instead (see the counterexample). -/
theorem c2_amended (conf : Rat) (idx : Nat) (b b' : Bool) (v v' : VisionEnv)
    (hconf : 85 < conf) (hidx : idx < SPECIES_NAMES.length) :
    identify_species_with_h5 ⟨true, Except.ok (conf, idx), b, v⟩
      = Except.ok (some (h5_success_result conf idx)) ∧
    identify_species_with_h5 ⟨true, Except.ok (conf, idx), b, v⟩
      = identify_species_with_h5 ⟨true, Except.ok (conf, idx), b', v'⟩ ∧
    (h5_success_result conf idx).detection_method = "H5 Model" := by
  have h : ∀ (b0 : Bool) (v0 : VisionEnv),
      identify_species_with_h5 ⟨true, Except.ok (conf, idx), b0, v0⟩
        = Except.ok (some (h5_success_result conf idx)) := by
    intro b0 v0
    unfold identify_species_with_h5 identify_species_body h5_try_block
    simp [bind, Except.bind, pure, Except.pure, if_pos (And.intro hconf hidx)]
  exact ⟨h b v, (h b v).trans (h b' v').symm, rfl⟩

/-- Witness for the amended C2 at 92% confidence, class index 6. -/
theorem c2_amended_witness :
    identify_species_with_h5 ⟨true, Except.ok (92, 6), false, venvIdle⟩
      = Except.ok (some (h5_success_result 92 6)) ∧
    identify_species_with_h5 ⟨true, Except.ok (92, 6), false, venvIdle⟩
      = identify_species_with_h5 ⟨true, Except.ok (92, 6), true, venvIdle⟩ ∧
    (h5_success_result 92 6).detection_method = "H5 Model" :=
  c2_amended 92 6 false true venvIdle venvIdle (by norm_num) (by decide)

/-- Local model absent, vision fallback configured but failing at client
initialisation. -/
def env_vision_down : PipelineEnv :=
  { modelLoaded := false, h5Predict := Except.error ⟨"model not loaded"⟩,
    visionAvailable := true, vision := venvIdle }

/-- A vision oracle whose Gemini enrichment call raises. -/
def venvGemFail : VisionEnv :=
  { clientOk := true, annotate := Except.ok [],
    geminiConfigured := true, geminiReply := Except.error ⟨"gemini down"⟩ }

/-- C3 as stated is false: when the vision step fails (here the client fails
to initialise), its exception is caught inside
`identify_marine_species_with_vision_api` but converted into a
`"Vision API Error"` result record, which the pipeline returns to the caller
as a normal identification — a user-visible error result instead of
degrading to the next step or the sentinel. -/
theorem c3_counterexample :
    (identify_species_with_h5 env_vision_down).map (fun o => o.map (fun r => r.name))
      = Except.ok (some "Vision API Error") ∧
    (identify_species_with_h5 env_vision_down).map (fun o => o.map (fun r => r.detection_method))
      = Except.ok (some "Google Cloud Vision API (Error)") := by
  exact ⟨rfl, rfl⟩

/-- C3 amended: a failure of the local-model step (model absent, its
preprocessing or prediction raising, or a low-confidence/out-of-range
prediction) degrades to the vision step when that is available, and the
pipeline returns exactly what the vision function yields, never an
exception; a failure of the Gemini enrichment is caught at its own step and
substituted with the placeholder details; but an exception inside the vision
step itself, though caught in that function, is converted into the
`"Vision API Error"` record, which the pipeline returns as a result rather
than degrading to the sentinel. -/
theorem c3_amended :
    (∀ env : PipelineEnv, env.visionAvailable = true →
      (env.modelLoaded = false ∨ (∃ e, env.h5Predict = Except.error e) ∨
        (∃ c i, env.h5Predict = Except.ok (c, i) ∧ ¬(85 < c ∧ i < SPECIES_NAMES.length))) →
      identify_species_with_h5 env
        = Except.ok (some (identify_marine_species_with_vision_api env.vision))) ∧
    (∀ (venv : VisionEnv) (species_name : String) (e : PyErr),
      venv.geminiConfigured = true → venv.geminiReply = Except.error e →
      get_species_details_from_gemini venv species_name = gemini_error_details species_name) ∧
    (∀ (venv : VisionEnv) (e : PyErr), vision_api_try venv = Except.error e →
      identify_marine_species_with_vision_api venv = vision_error_result e) := by
  refine ⟨?_, ?_, ?_⟩
  · rintro ⟨ml, hp, va, vz⟩ hv hfail
    dsimp only at hv
    subst hv
    unfold identify_species_with_h5 identify_species_body h5_try_block after_h5_fallback
    cases ml with
    | false => simp [pure, Except.pure]
    | true =>
      rcases hfail with h | ⟨e, he⟩ | ⟨c, i, hok, hlow⟩
      · exact absurd h (by simp)
      · dsimp only at he
        subst he
        simp [bind, Except.bind, pure, Except.pure]
      · dsimp only at hok
        subst hok
        simp [bind, Except.bind, pure, Except.pure, if_neg hlow]
  · intro venv species_name e hconf hrep
    unfold get_species_details_from_gemini
    rw [hconf, hrep]
    simp
  · intro venv e h
    unfold identify_marine_species_with_vision_api
    rw [h]

/-- Witness for the amended C3: the model-absent case degrades to the vision
step; a raising Gemini reply yields the placeholder details; the failing
vision `try` yields the error record. -/
theorem c3_amended_witness :
    identify_species_with_h5 ⟨false, Except.error ⟨"m"⟩, true, venvIdle⟩
      = Except.ok (some (identify_marine_species_with_vision_api venvIdle)) ∧
    get_species_details_from_gemini venvGemFail "Sharks" = gemini_error_details "Sharks" ∧
    identify_marine_species_with_vision_api venvIdle
      = vision_error_result ⟨"Vision API client initialization failed"⟩ := by
  refine ⟨c3_amended.1 ⟨false, Except.error ⟨"m"⟩, true, venvIdle⟩ rfl (Or.inl rfl),
    c3_amended.2.1 venvGemFail "Sharks" ⟨"gemini down"⟩ rfl rfl,
    c3_amended.2.2 venvIdle ⟨"Vision API client initialization failed"⟩ rfl⟩

/-- The pipeline returns the sentinel whenever the vision fallback is not
configured and the local model is absent, raises, or predicts below the
threshold or out of range. -/
theorem sentinel_of_no_paths (penv : PipelineEnv)
    (hv : penv.visionAvailable = false)
    (hlocal : penv.modelLoaded = false ∨ (∃ e, penv.h5Predict = Except.error e) ∨
      (∃ c i, penv.h5Predict = Except.ok (c, i) ∧ ¬(85 < c ∧ i < SPECIES_NAMES.length))) :
    identify_species_with_h5 penv = Except.ok none := by
  obtain ⟨ml, hp, va, vz⟩ := penv
  dsimp only at hv
  subst hv
  unfold identify_species_with_h5 identify_species_body h5_try_block after_h5_fallback
  cases ml with
  | false => simp [pure, Except.pure]
  | true =>
    rcases hlocal with h | ⟨e, he⟩ | ⟨c, i, hok, hlow⟩
    · exact absurd h (by simp)
    · dsimp only at he
      subst he
      simp [bind, Except.bind, pure, Except.pure]
    · dsimp only at hok
      subst hok
      simp [bind, Except.bind, pure, Except.pure, if_neg hlow]

/-- C4 amended: when the cloud vision fallback is not configured and the
local model is unavailable or has failed (absent, raised, or predicted below
the threshold or out of range), the pipeline returns the sentinel, and a
valid upload request then leaves the store untouched — no Upload record,
unchanged stats — while `/predict` answers success with a null prediction
and `/predict_web` silently redirects to the dashboard. A configured but
failing fallback behaves differently: it yields the `"Vision API Error"`
record, which the endpoints persist like a real result (see the
counterexample). -/
theorem c4_sentinel_silent (st : Store) (fname : String) (uid : Nat) (user : UserRec)
    (stamp : String) (now newId : Nat) (penv : PipelineEnv) (lat lng : Option Rat)
    (hv : penv.visionAvailable = false)
    (hlocal : penv.modelLoaded = false ∨ (∃ e, penv.h5Predict = Except.error e) ∨
      (∃ c i, penv.h5Predict = Except.ok (c, i) ∧ ¬(85 < c ∧ i < SPECIES_NAMES.length)))
    (hfile : fname ≠ "")
    (hallowed : allowed_file fname = true)
    (huser : find_by_id st uid = some user) :
    identify_species_with_h5 penv = Except.ok none ∧
    predict st ⟨some fname, lat, lng⟩ uid stamp now newId penv
      = (st, ApiResponse.successNull user.id user.username) ∧
    predict_web st ⟨some fname, lat, lng⟩ uid stamp now newId penv
      = (st, WebResponse.silentRedirect "dashboard") := by
  have hsent := sentinel_of_no_paths penv hv hlocal
  have hb : (fname == "") = false := beq_eq_false_iff_ne.mpr hfile
  refine ⟨hsent, ?_, ?_⟩
  · unfold predict
    simp only [hb, hallowed, huser, hsent, Bool.false_eq_true, if_false, Bool.not_true]
  · unfold predict_web
    simp only [hb, hallowed, huser, hsent, Bool.false_eq_true, if_false, Bool.not_true]

/-- A registered user and a store holding just that user. -/
def userAlice : UserRec :=
  { id := 1, username := "alice", email := "alice@example.com",
    password_hash := some "h", firebase_uid := none, bio := none, created_at := 0 }

/-- A store with one user, no uploads and no stats document. -/
def stOneUser : Store :=
  { users := [userAlice], uploads := [], stats := none }

/-- No local model and no vision fallback. -/
def env_all_down : PipelineEnv :=
  { modelLoaded := false, h5Predict := Except.error ⟨"no model"⟩,
    visionAvailable := false, vision := venvIdle }

/-- Witness for C4 on a concrete store and request. -/
theorem c4_sentinel_silent_witness :
    identify_species_with_h5 env_all_down = Except.ok none ∧
    predict stOneUser ⟨some "fish.png", none, none⟩ 1 "ts_" 5 10 env_all_down
      = (stOneUser, ApiResponse.successNull 1 "alice") ∧
    predict_web stOneUser ⟨some "fish.png", none, none⟩ 1 "ts_" 5 10 env_all_down
      = (stOneUser, WebResponse.silentRedirect "dashboard") :=
  c4_sentinel_silent stOneUser "fish.png" 1 userAlice "ts_" 5 10 env_all_down none none
    rfl (Or.inl rfl) (by decide) (by decide) rfl

/-- C5 as stated is false on `/predict`: with the local model identifying
`"Sharks"` at 92% on a valid request, the API-mode endpoint persists the
Upload record but does not touch the AggregateStats document (only
`/predict_web` calls `update_global_stats`). -/
theorem c5_counterexample :
    ((predict stOneUser ⟨some "shark.png", none, none⟩ 1 "ts_" 5 10 env_conf92).1.uploads.map
      (fun u => u.species_name)) = ["Sharks"] ∧
    (predict stOneUser ⟨some "shark.png", none, none⟩ 1 "ts_" 5 10 env_conf92).1.uploads.length
      = stOneUser.uploads.length + 1 ∧
    (predict stOneUser ⟨some "shark.png", none, none⟩ 1 "ts_" 5 10 env_conf92).1.stats = none ∧
    stOneUser.stats = none := by
  exact ⟨rfl, rfl, rfl, rfl⟩

/-- C5 amended: on a valid upload request whose pipeline run returns a real
result, both endpoints persist an Upload record carrying the result's
species name and confidence and owned by the requesting session user; but
only the form-mode endpoint `/predict_web` refreshes the AggregateStats
document (to the full recount including the new upload) — the API-mode
endpoint `/predict` leaves the stats document exactly as it was. -/
theorem c5_amended (st : Store) (fname : String) (uid : Nat) (user : UserRec)
    (stamp : String) (now newId : Nat) (penv : PipelineEnv) (lat lng : Option Rat)
    (animal : SpeciesResult)
    (hfile : fname ≠ "")
    (hallowed : allowed_file fname = true)
    (huser : find_by_id st uid = some user)
    (hident : identify_species_with_h5 penv = Except.ok (some animal)) :
    (predict st ⟨some fname, lat, lng⟩ uid stamp now newId penv).1.uploads
      = st.uploads ++ [⟨newId, stamp ++ fname, animal.name, animal.confidence, uid, none, none, now⟩] ∧
    (predict st ⟨some fname, lat, lng⟩ uid stamp now newId penv).2
      = ApiResponse.success animal (stamp ++ fname) user.id user.username ∧
    (predict st ⟨some fname, lat, lng⟩ uid stamp now newId penv).1.stats = st.stats ∧
    (predict_web st ⟨some fname, lat, lng⟩ uid stamp now newId penv).1.uploads
      = st.uploads ++ [⟨newId, stamp ++ fname, animal.name, animal.confidence, uid, lat, lng, now⟩] ∧
    (predict_web st ⟨some fname, lat, lng⟩ uid stamp now newId penv).1.stats
      = some (⟨st.uploads.length + 1, st.users.length,
          ((st.uploads ++ [(⟨newId, stamp ++ fname, animal.name, animal.confidence, uid, lat, lng, now⟩ : UploadRec)]).map
            (fun u => u.species_name)).dedup.length, now⟩ : StatsRec) ∧
    (predict_web st ⟨some fname, lat, lng⟩ uid stamp now newId penv).2
      = WebResponse.resultPage animal (stamp ++ fname) := by
  have hb : (fname == "") = false := beq_eq_false_iff_ne.mpr hfile
  unfold predict predict_web update_global_stats
  simp only [hb, hallowed, huser, hident, Bool.false_eq_true, if_false, Bool.not_true,
    List.length_append, List.length_cons, List.length_nil]
  exact ⟨trivial, trivial, trivial, trivial, trivial, trivial⟩

/-- Witness for the amended C5: the 92%-`"Sharks"` scenario on the one-user
store. -/
theorem c5_amended_witness :
    (predict stOneUser ⟨some "shark.png", none, none⟩ 1 "ts_" 5 10 env_conf92).1.uploads
      = stOneUser.uploads ++ [⟨10, "ts_" ++ "shark.png", (h5_success_result 92 6).name,
          (h5_success_result 92 6).confidence, 1, none, none, 5⟩] ∧
    (predict stOneUser ⟨some "shark.png", none, none⟩ 1 "ts_" 5 10 env_conf92).2
      = ApiResponse.success (h5_success_result 92 6) ("ts_" ++ "shark.png") 1 "alice" ∧
    (predict stOneUser ⟨some "shark.png", none, none⟩ 1 "ts_" 5 10 env_conf92).1.stats
      = stOneUser.stats ∧
    (predict_web stOneUser ⟨some "shark.png", none, none⟩ 1 "ts_" 5 10 env_conf92).1.uploads
      = stOneUser.uploads ++ [⟨10, "ts_" ++ "shark.png", (h5_success_result 92 6).name,
          (h5_success_result 92 6).confidence, 1, none, none, 5⟩] ∧
    (predict_web stOneUser ⟨some "shark.png", none, none⟩ 1 "ts_" 5 10 env_conf92).1.stats
      = some (⟨stOneUser.uploads.length + 1, stOneUser.users.length,
          ((stOneUser.uploads ++ [(⟨10, "ts_" ++ "shark.png", (h5_success_result 92 6).name,
            (h5_success_result 92 6).confidence, 1, none, none, 5⟩ : UploadRec)]).map
            (fun u => u.species_name)).dedup.length, 5⟩ : StatsRec) ∧
    (predict_web stOneUser ⟨some "shark.png", none, none⟩ 1 "ts_" 5 10 env_conf92).2
      = WebResponse.resultPage (h5_success_result 92 6) ("ts_" ++ "shark.png") :=
  c5_amended stOneUser "shark.png" 1 userAlice "ts_" 5 10 env_conf92 none none
    (h5_success_result 92 6) (by decide) (by decide) rfl rfl

/-- C6 as stated is false: `"Angelfish"` and `"angelfish"` are equal after
case folding, but the matched `angelfish` entry has no `name` key, so
`get_animal_details` copies each caller's spelling into the result and the
two records differ. -/
theorem c6_counterexample :
    get_animal_details "Angelfish" ≠ get_animal_details "angelfish" := by
  decide

/-- C6 amended: keys equal after case folding and underscore/space
normalisation always match the same `animal_database` entry, and when a
match exists the results agree on every field except possibly `name`, which
echoes the caller's spelling when the entry lacks a `name` key (when the
entry carries one — as for the sea-turtle entry — the records are fully
equal, so `"Sea_Turtle"`, `"sea turtle"` and `"Sea Turtle"` resolve to the
same record). For keys matching no entry the placeholder also embeds the
caller's spelling in its `name` and `facts` fields. -/
theorem c6_amended :
    (∀ a b : String, pyNormalize a = pyNormalize b →
      animal_lookup a = animal_lookup b ∧
      (animal_lookup a ≠ none →
        { get_animal_details a with name := (get_animal_details b).name }
          = get_animal_details b)) ∧
    get_animal_details "Sea_Turtle" = get_animal_details "sea turtle" ∧
    get_animal_details "sea turtle" = get_animal_details "Sea Turtle" := by
  refine ⟨?_, by decide, by decide⟩
  intro a b h
  have hlk : animal_lookup a = animal_lookup b := by
    unfold animal_lookup
    rw [h]
  refine ⟨hlk, ?_⟩
  intro hne
  cases hsome : animal_lookup a with
  | none => exact absurd hsome hne
  | some kd =>
    have hb : animal_lookup b = some kd := hlk ▸ hsome
    unfold get_animal_details
    rw [hsome, hb]

/-- Witness for the amended C6 at `"SEA_TURTLE"` vs `"sea turtle"`. -/
theorem c6_amended_witness :
    animal_lookup "SEA_TURTLE" = animal_lookup "sea turtle" ∧
    { get_animal_details "SEA_TURTLE" with name := (get_animal_details "sea turtle").name }
      = get_animal_details "sea turtle" ∧
    get_animal_details "Sea_Turtle" = get_animal_details "sea turtle" :=
  ⟨(c6_amended.1 "SEA_TURTLE" "sea turtle" (by decide)).1,
   (c6_amended.1 "SEA_TURTLE" "sea turtle" (by decide)).2 (by decide),
   c6_amended.2.1⟩

/-- A `"Sharks"` upload pinned exactly on the equator (latitude `0.0`,
longitude present). -/
def uploadEquator : UploadRec :=
  { id := 3, filename := "s.png", species_name := "Sharks", confidence := 90,
    user_id := 1, latitude := some 0, longitude := some 5, upload_date := 7 }

/-- A store holding that upload. -/
def stEquator : Store :=
  { users := [userAlice], uploads := [uploadEquator], stats := none }

/-- C7 as stated is false: an upload with both coordinates present but
latitude `0.0` is dropped by the endpoint's Python truthiness filter
(`u.latitude and u.longitude`), so a geolocated upload on the equator or the
prime meridian yields no entry. -/
theorem c7_counterexample :
    species_locations stEquator (some "Sharks") = LocResponse.ok [] ∧
    uploadEquator ∈ stEquator.uploads ∧
    uploadEquator.species_name = "Sharks" ∧
    uploadEquator.latitude = some 0 ∧
    uploadEquator.longitude = some 5 := by
  exact ⟨rfl, by decide, rfl, rfl, rfl⟩

/-- C7 amended: for a non-empty species query the endpoint returns exactly
one entry per upload of that species whose latitude and longitude are both
present *and non-zero* (Python truthiness), in collection order; every such
upload contributes its entry. -/
theorem c7_amended (st : Store) (sp : String) (hsp : sp ≠ "") :
    species_locations st (some sp)
      = LocResponse.ok ((st.uploads.filter (fun u =>
          (pyTruthy u.latitude && pyTruthy u.longitude) && u.species_name == sp)).map locEntry) ∧
    (∀ u ∈ st.uploads, u.species_name = sp → pyTruthy u.latitude = true →
      pyTruthy u.longitude = true →
      ∃ resp, species_locations st (some sp) = LocResponse.ok resp ∧ locEntry u ∈ resp) := by
  have hb : (sp == "") = false := beq_eq_false_iff_ne.mpr hsp
  have hmain : species_locations st (some sp)
      = LocResponse.ok ((st.uploads.filter (fun u =>
          (pyTruthy u.latitude && pyTruthy u.longitude) && u.species_name == sp)).map locEntry) := by
    unfold species_locations find_by_species
    dsimp only
    rw [hb]
    simp only [Bool.false_eq_true, if_false, List.filter_filter]
  refine ⟨hmain, ?_⟩
  intro u hu hspn hlat hlng
  refine ⟨_, hmain, List.mem_map_of_mem locEntry ?_⟩
  exact List.mem_filter.mpr ⟨hu, by simp [hlat, hlng, hspn]⟩

/-- A geolocated `"Sharks"` upload away from the zero coordinates. -/
def uploadLoc : UploadRec :=
  { id := 4, filename := "t.png", species_name := "Sharks", confidence := 90,
    user_id := 1, latitude := some 10, longitude := some 20, upload_date := 8 }

/-- A store holding that upload. -/
def stLoc : Store :=
  { users := [userAlice], uploads := [uploadLoc], stats := none }

/-- Witness for the amended C7 on a concrete geolocated upload. -/
theorem c7_amended_witness :
    species_locations stLoc (some "Sharks")
      = LocResponse.ok ((stLoc.uploads.filter (fun u =>
          (pyTruthy u.latitude && pyTruthy u.longitude) && u.species_name == "Sharks")).map locEntry) ∧
    ∃ resp, species_locations stLoc (some "Sharks") = LocResponse.ok resp ∧
      locEntry uploadLoc ∈ resp :=
  ⟨(c7_amended stLoc "Sharks" (by decide)).1,
   (c7_amended stLoc "Sharks" (by decide)).2 uploadLoc (by decide) rfl (by decide) (by decide)⟩

/-- C8: registering with a username or email already present in the store is
rejected with a flash message and mutates nothing — the store after the
failed registration is exactly the store before it. -/
theorem c8_duplicate_registration_rejected (st : Store)
    (username email password_hash : String) (newUserId now : Nat)
    (hdup : (∃ u ∈ st.users, u.username = username) ∨ (∃ u ∈ st.users, u.email = email)) :
    (register st username email password_hash newUserId now).1 = st ∧
    ((register st username email password_hash newUserId now).2
        = RegisterResponse.failure "Username already exists" ∨
      (register st username email password_hash newUserId now).2
        = RegisterResponse.failure "Email already registered") := by
  unfold register
  rcases hdup with ⟨u, hm, hun⟩ | ⟨u, hm, hem⟩
  · have hu : (find_by_username st username).isSome = true := by
      unfold find_by_username
      exact List.find?_isSome.mpr ⟨u, hm, by simp [hun]⟩
    simp [hu]
  · by_cases hu : (find_by_username st username).isSome = true
    · simp [hu]
    · have he : (find_by_email st email).isSome = true := by
        unfold find_by_email
        exact List.find?_isSome.mpr ⟨u, hm, by simp [hem]⟩
      simp [hu, he]

/-- Witness for C8: registering a second `"alice"` fails and leaves the
store unchanged. -/
theorem c8_duplicate_registration_rejected_witness :
    (register stOneUser "alice" "new@example.com" "pw" 2 9).1 = stOneUser ∧
    ((register stOneUser "alice" "new@example.com" "pw" 2 9).2
        = RegisterResponse.failure "Username already exists" ∨
      (register stOneUser "alice" "new@example.com" "pw" 2 9).2
        = RegisterResponse.failure "Email already registered") :=
  c8_duplicate_registration_rejected stOneUser "alice" "new@example.com" "pw" 2 9
    (Or.inl ⟨userAlice, by decide, rfl⟩)

/-- C10: `Upload.find_by_user_id` returns exactly the user's uploads (a
permutation of the filter of the collection) sorted by `upload_date`
descending; consequently every element the dashboard/profile views render
(the first 10) is at least as recent as every element they drop. -/
theorem c10_find_by_user_id_sorted (st : Store) (uid : Nat) :
    (find_by_user_id st uid).Pairwise (fun a b => b.upload_date ≤ a.upload_date) ∧
    (find_by_user_id st uid).Perm (st.uploads.filter (fun u => u.user_id == uid)) ∧
    (∀ x ∈ dashboard_recent_uploads st uid, ∀ y ∈ (find_by_user_id st uid).drop 10,
      y.upload_date ≤ x.upload_date) := by
  have hs : (find_by_user_id st uid).Pairwise
      (fun a b : UploadRec => b.upload_date ≤ a.upload_date) := by
    have h := @List.sorted_mergeSort UploadRec
      (fun a b => decide (b.upload_date ≤ a.upload_date))
      (fun a b c hab hbc => by
        simp only [decide_eq_true_eq] at *
        exact le_trans hbc hab)
      (fun a b => by
        simpa using Nat.le_total b.upload_date a.upload_date)
      (st.uploads.filter (fun u => u.user_id == uid))
    exact h.imp (fun hab => by simpa using hab)
  refine ⟨hs, List.mergeSort_perm _ _, ?_⟩
  intro x hx y hy
  have hsplit := hs
  rw [← List.take_append_drop 10 (find_by_user_id st uid)] at hsplit
  exact (List.pairwise_append.mp hsplit).2.2 x hx y hy

/-- With enough fuel, `decChars` produces the decimal digits (most
significant first) mapped to digit characters. -/
theorem decChars_eq (fuel : Nat) : ∀ n : Nat, n ≤ fuel →
    decChars fuel n = (Nat.digits 10 n).reverse.map Nat.digitChar := by
  induction fuel with
  | zero =>
    intro n hn
    have h0 : n = 0 := Nat.le_zero.mp hn
    subst h0
    simp [decChars]
  | succ f ih =>
    intro n hn
    by_cases h0 : n = 0
    · subst h0
      simp [decChars]
    · rw [decChars, if_neg h0,
        Nat.digits_def' (by norm_num : (1:ℕ) < 10) (Nat.pos_of_ne_zero h0)]
      have hdiv : n / 10 ≤ f := by
        have := Nat.div_lt_self (Nat.pos_of_ne_zero h0) (by norm_num : 1 < 10)
        omega
      rw [ih (n / 10) hdiv]
      simp

/-- `Nat.digitChar` is injective below 10. -/
theorem digitChar_inj_lt : ∀ a < 10, ∀ b < 10, Nat.digitChar a = Nat.digitChar b → a = b := by
  decide

/-- Digit characters of numbers below 10 satisfy `Char.isDigit`. -/
theorem digitChar_isDigit : ∀ a < 10, (Nat.digitChar a).isDigit = true := by
  decide

/-- Mapping `Nat.digitChar` over lists of digits (< 10) is injective. -/
theorem map_digitChar_inj : ∀ l₁ l₂ : List Nat, (∀ x ∈ l₁, x < 10) → (∀ x ∈ l₂, x < 10) →
    l₁.map Nat.digitChar = l₂.map Nat.digitChar → l₁ = l₂ := by
  intro l₁
  induction l₁ with
  | nil =>
    intro l₂ _ _ h
    cases l₂ with
    | nil => rfl
    | cons b t => simp at h
  | cons a t ih =>
    intro l₂ h1 h2 h
    cases l₂ with
    | nil => simp at h
    | cons b t₂ =>
      simp only [List.map_cons, List.cons.injEq] at h
      have hab : a = b :=
        digitChar_inj_lt a (h1 a (by simp)) b (h2 b (by simp)) h.1
      have ht : t = t₂ :=
        ih t₂ (fun x hx => h1 x (by simp [hx])) (fun x hx => h2 x (by simp [hx])) h.2
      rw [hab, ht]

/-- Every digit of `Nat.digits 10 n` is below 10. -/
theorem digits_lt_ten (n : Nat) : ∀ x ∈ (Nat.digits 10 n).reverse, x < 10 := by
  intro x hx
  exact Nat.digits_lt_base (by norm_num) (List.mem_reverse.mp hx)

/-- `natStr` (the embedding of Python `str` on naturals) is injective. -/
theorem natStr_injective : Function.Injective natStr := by
  intro m n h
  unfold natStr at h
  have hz : ("0" : String).data = ['0'] := rfl
  by_cases hm : m = 0 <;> by_cases hn : n = 0
  · rw [hm, hn]
  · rw [if_pos hm, if_neg hn] at h
    have hd := congrArg String.data h
    rw [hz, decChars_eq n n le_rfl] at hd
    have h0 : ([0].map Nat.digitChar) = (Nat.digits 10 n).reverse.map Nat.digitChar := by
      simpa using hd
    have := map_digitChar_inj [0] ((Nat.digits 10 n).reverse)
      (by simp) (digits_lt_ten n) h0
    have hrev : Nat.digits 10 n = [0] := by
      have := congrArg List.reverse this
      simpa using this.symm
    have := Nat.ofDigits_digits 10 n
    rw [hrev] at this
    simp [Nat.ofDigits] at this
    exact absurd this.symm hn
  · rw [if_neg hm, if_pos hn] at h
    have hd := congrArg String.data h
    rw [hz, decChars_eq m m le_rfl] at hd
    have h0 : ((Nat.digits 10 m).reverse.map Nat.digitChar) = ([0].map Nat.digitChar) := by
      simpa using hd
    have := map_digitChar_inj ((Nat.digits 10 m).reverse) [0]
      (digits_lt_ten m) (by simp) h0
    have hrev : Nat.digits 10 m = [0] := by
      have := congrArg List.reverse this
      simpa using this
    have := Nat.ofDigits_digits 10 m
    rw [hrev] at this
    simp [Nat.ofDigits] at this
    omega
  · rw [if_neg hm, if_neg hn] at h
    have hd := congrArg String.data h
    rw [decChars_eq m m le_rfl, decChars_eq n n le_rfl] at hd
    have := map_digitChar_inj _ _ (digits_lt_ten m) (digits_lt_ten n) hd
    have hdig : Nat.digits 10 m = Nat.digits 10 n := by
      have := congrArg List.reverse this
      simpa using this
    have hm' := Nat.ofDigits_digits 10 m
    have hn' := Nat.ofDigits_digits 10 n
    rw [hdig] at hm'
    exact hm'.symm.trans hn'

/-- Every character of `natStr n` is a decimal digit. -/
theorem natStr_isDigit (n : Nat) : ∀ c ∈ (natStr n).data, c.isDigit = true := by
  intro c hc
  unfold natStr at hc
  by_cases h0 : n = 0
  · rw [if_pos h0] at hc
    have : c = '0' := by simpa using hc
    rw [this]
    decide
  · rw [if_neg h0] at hc
    rw [decChars_eq n n le_rfl] at hc
    simp only [String.data] at hc
    obtain ⟨d, hd, rfl⟩ := List.mem_map.mp hc
    exact digitChar_isDigit d (digits_lt_ten n d hd)

/-- `natStr` never produces the empty string. -/
theorem natStr_ne_nil (n : Nat) : (natStr n).data ≠ [] := by
  unfold natStr
  by_cases h0 : n = 0
  · rw [if_pos h0]
    decide
  · rw [if_neg h0, decChars_eq n n le_rfl]
    simp [Nat.digits_ne_nil_iff_ne_zero.mpr h0]

/-- For a fixed base, the suffixed candidates are pairwise distinct. -/
theorem suffixed_injective (base : String) : Function.Injective (suffixed base) := by
  intro c₁ c₂ h
  unfold suffixed at h
  have hd := congrArg String.data h
  simp only [String.data_append] at hd
  have h2 : (natStr c₁).data = (natStr c₂).data := by
    simpa [List.append_assoc] using hd
  have : natStr c₁ = natStr c₂ := by
    cases hn1 : natStr c₁ with
    | mk d₁ =>
      cases hn2 : natStr c₂ with
      | mk d₂ =>
        rw [hn1, hn2] at h2
        exact congrArg String.mk (by simpa using h2)
  exact natStr_injective this

/-- Each suffixing step strictly lengthens the name. -/
theorem suffixed_length_gt (base : String) (c : Nat) :
    base.length < (suffixed base c).length := by
  unfold suffixed
  have h1 : (base ++ "_" ++ natStr c).data = base.data ++ "_".data ++ (natStr c).data := by
    simp [String.data_append]
  have h2 : (suffixed base c).length = base.data.length + 1 + (natStr c).data.length := by
    unfold suffixed
    show (base ++ "_" ++ natStr c).data.length = _
    rw [h1]
    simp
    omega
  show base.data.length < (suffixed base c).length
  rw [h2]
  omega

/-- Pigeonhole over the suffixed candidates: among any
`users.length + 1` consecutive counters, some candidate username is free. -/
theorem exists_free_candidate (st : Store) (base : String) (c : Nat) :
    ∃ k, c ≤ k ∧ k < c + (st.users.length + 1) ∧
      username_taken st (suffixed base k) = false := by
  by_contra hcon
  push_neg at hcon
  have htaken : ∀ k, c ≤ k → k < c + (st.users.length + 1) →
      suffixed base k ∈ st.users.map (fun u => u.username) := by
    intro k h1 h2
    have hne := hcon k h1 h2
    have hk : username_taken st (suffixed base k) = true := by
      cases hkb : username_taken st (suffixed base k)
      · exact absurd hkb hne
      · rfl
    unfold username_taken find_by_username at hk
    obtain ⟨u, hu, hup⟩ := List.find?_isSome.mp hk
    have he : u.username = suffixed base k := by simpa using hup
    exact he ▸ List.mem_map_of_mem _ hu
  have hinj : Function.Injective (fun i => suffixed base (c + i)) := by
    intro i j hij
    exact Nat.add_left_cancel (suffixed_injective base hij)
  have hnodup : ((List.range (st.users.length + 1)).map (fun i => suffixed base (c + i))).Nodup :=
    List.Nodup.map hinj (List.nodup_range _)
  have h1 : ((List.range (st.users.length + 1)).map
      (fun i => suffixed base (c + i))).toFinset.card = st.users.length + 1 := by
    rw [List.toFinset_card_of_nodup hnodup]
    simp
  have h2 : ((List.range (st.users.length + 1)).map
        (fun i => suffixed base (c + i))).toFinset
      ⊆ (st.users.map (fun u => u.username)).toFinset := by
    intro x hx
    rw [List.mem_toFinset] at *
    obtain ⟨i, hi, rfl⟩ := List.mem_map.mp hx
    have hi' := List.mem_range.mp hi
    exact htaken (c + i) (Nat.le_add_right c i) (by omega)
  have h3 := Finset.card_le_card h2
  have h4 := List.toFinset_card_le (st.users.map (fun u => u.username))
  have h5 : (st.users.map (fun u => u.username)).length = st.users.length := by simp
  omega

/-- If a free candidate lies within the fuel window, the Firebase loop
settles on a free username. -/
theorem firebase_loop_free (st : Store) (base : String) :
    ∀ (fuel c : Nat) (username : String),
      (∃ k, c ≤ k ∧ k < c + fuel ∧ username_taken st (suffixed base k) = false) →
      username_taken st (firebase_username_loop st base (fuel + 1) username c) = false := by
  intro fuel
  induction fuel with
  | zero =>
    rintro c username ⟨k, hk1, hk2, _⟩
    omega
  | succ f ih =>
    rintro c username ⟨k, hk1, hk2, hkf⟩
    rw [firebase_username_loop]
    by_cases ht : username_taken st username = true
    · rw [if_pos ht]
      by_cases hc : username_taken st (suffixed base c) = true
      · apply ih (c + 1) (suffixed base c)
        have hkc : k ≠ c := by
          intro he
          rw [he] at hkf
          rw [hkf] at hc
          exact absurd hc (by decide)
        exact ⟨k, by omega, by omega, hkf⟩
      · rw [firebase_username_loop]
        rw [if_neg hc]
        exact Bool.not_eq_true _ |>.mp hc
    · rw [if_neg ht]
      exact Bool.not_eq_true _ |>.mp ht

/-- The Firebase loop returns its starting username or a suffixed
candidate. -/
theorem firebase_loop_form (st : Store) (base : String) :
    ∀ (fuel c : Nat) (username : String),
      firebase_username_loop st base fuel username c = username ∨
        ∃ k, firebase_username_loop st base fuel username c = suffixed base k := by
  intro fuel
  induction fuel with
  | zero =>
    intro c username
    exact Or.inl rfl
  | succ f ih =>
    intro c username
    rw [firebase_username_loop]
    by_cases ht : username_taken st username = true
    · rw [if_pos ht]
      rcases ih (c + 1) (suffixed base c) with h | ⟨k, hk⟩
      · exact Or.inr ⟨c, h⟩
      · exact Or.inr ⟨k, hk⟩
    · rw [if_neg ht]
      exact Or.inl rfl

/-- Suffixing strictly shrinks the set of user names at least as long as the
current candidate — the termination measure of the Google loop. -/
theorem cnt_strict_decrease (st : Store) (b : String) (c : Nat)
    (hmem : b ∈ st.users.map (fun u => u.username)) :
    (st.users.filter (fun u => decide ((suffixed b c).length ≤ u.username.length))).length
      < (st.users.filter (fun u => decide (b.length ≤ u.username.length))).length := by
  have hlen := suffixed_length_gt b c
  have hsub : List.Sublist
      (st.users.filter (fun u => decide ((suffixed b c).length ≤ u.username.length)))
      (st.users.filter (fun u => decide (b.length ≤ u.username.length))) :=
    List.monotone_filter_right _ (fun u hu => by
      simp only [decide_eq_true_eq] at *
      omega)
  have hle := hsub.length_le
  cases Nat.eq_or_lt_of_le hle with
  | inr h => exact h
  | inl h =>
    exfalso
    have hfeq := hsub.eq_of_length h
    obtain ⟨u₀, hu₀, hname⟩ := List.mem_map.mp hmem
    have hin : u₀ ∈ st.users.filter (fun u => decide (b.length ≤ u.username.length)) :=
      List.mem_filter.mpr ⟨hu₀, by simp [hname]⟩
    rw [← hfeq] at hin
    have hbad := (List.mem_filter.mp hin).2
    simp only [decide_eq_true_eq, hname] at hbad
    omega

/-- With fuel exceeding the measure, the Google loop settles on a free
username. -/
theorem google_loop_free (st : Store) :
    ∀ (fuel : Nat) (b : String) (c : Nat),
      (st.users.filter (fun u => decide (b.length ≤ u.username.length))).length < fuel →
      username_taken st (google_username_loop st fuel b c) = false := by
  intro fuel
  induction fuel with
  | zero =>
    intro b c h
    omega
  | succ f ih =>
    intro b c h
    rw [google_username_loop]
    by_cases ht : username_taken st b = true
    · rw [if_pos ht]
      apply ih
      have hmem : b ∈ st.users.map (fun u => u.username) := by
        unfold username_taken find_by_username at ht
        obtain ⟨u, hu, hup⟩ := List.find?_isSome.mp ht
        have he : u.username = b := by simpa using hup
        exact he ▸ List.mem_map_of_mem _ hu
      have := cnt_strict_decrease st b c hmem
      omega
    · rw [if_neg ht]
      exact Bool.not_eq_true _ |>.mp ht

/-- Two users whose names are the base name and the base name with suffix 1. -/
def userJohn : UserRec :=
  { id := 11, username := "john", email := "john@example.com",
    password_hash := none, firebase_uid := some "f1", bio := none, created_at := 0 }

/-- The colliding second user. -/
def userJohn1 : UserRec :=
  { id := 12, username := "john_1", email := "john1@example.com",
    password_hash := none, firebase_uid := some "f2", bio := none, created_at := 0 }

/-- A store in which both `"john"` and `"john_1"` are taken. -/
def stJohn : Store :=
  { users := [userJohn, userJohn1], uploads := [], stats := none }

/-- C9 as stated is false for the Google OAuth path: with `"john"` and
`"john_1"` taken, `google_callback`'s loop reassigns its base each round and
creates `"john_1_2"` — the base name with two accumulated suffixes, not a
single numeric suffix (no natural `k` makes it `"john" ++ "_" ++ str(k)`,
since `str(k)` never contains an underscore); the Firebase path in the same
store creates the single-suffix `"john_2"`. -/
theorem c9_counterexample :
    google_unique_username stJohn "john" = "john_1_2" ∧
    firebase_unique_username stJohn "john" = "john_2" ∧
    ¬ ∃ k : Nat, "john_1_2" = "john" ++ "_" ++ natStr k := by
  refine ⟨rfl, rfl, ?_⟩
  rintro ⟨k, hk⟩
  have h2 := congrArg String.data hk
  simp only [String.data_append, List.append_assoc, List.cons_append, List.nil_append,
    List.cons.injEq, true_and] at h2
  have h9 : '_' ∈ (natStr k).data := by
    rw [← h2]
    simp
  exact absurd (natStr_isDigit k '_' h9) (by decide)

/-- C9 amended: in both federated paths the generated username never
collides with an existing one; the Firebase path resolves a collision by a
single incrementing numeric suffix on the fixed base name, while the Google
path re-suffixes its mutated base, so repeated collisions accumulate
suffixes (see the counterexample). -/
theorem c9_amended :
    (∀ (st : Store) (base : String),
      username_taken st (firebase_unique_username st base) = false ∧
      (username_taken st base = true →
        ∃ k, firebase_unique_username st base = suffixed base k)) ∧
    (∀ (st : Store) (base : String),
      username_taken st (google_unique_username st base) = false) := by
  constructor
  · intro st base
    constructor
    · unfold firebase_unique_username
      apply firebase_loop_free st base (st.users.length + 1) 1 base
      exact exists_free_candidate st base 1
    · intro ht
      unfold firebase_unique_username
      rw [firebase_username_loop]
      rw [if_pos ht]
      rcases firebase_loop_form st base (st.users.length + 1) 2 (suffixed base 1) with h | ⟨k, hk⟩
      · exact ⟨1, h⟩
      · exact ⟨k, hk⟩
  · intro st base
    unfold google_unique_username
    apply google_loop_free
    have := List.length_filter_le (fun u => decide (base.length ≤ u.username.length)) st.users
    omega

/-- C4 as stated is false in its "cloud fallback has failed" case: with the
local model absent and the vision fallback configured but failing (client
initialisation raises), the pipeline does not return the sentinel — it
returns the `"Vision API Error"` record — and a valid upload request then
persists an Upload with `species_name = "Vision API Error"` via `/predict`,
while `/predict_web` additionally rewrites the AggregateStats document; the
store does not stay unchanged. -/
theorem c4_counterexample :
    (identify_species_with_h5 env_vision_down).map (fun o => o.map (fun r => r.name))
      = Except.ok (some "Vision API Error") ∧
    ((predict stOneUser ⟨some "fish.png", none, none⟩ 1 "ts_" 5 10 env_vision_down).1.uploads.map
      (fun u => u.species_name)) = ["Vision API Error"] ∧
    (predict stOneUser ⟨some "fish.png", none, none⟩ 1 "ts_" 5 10 env_vision_down).1.uploads.length
      = stOneUser.uploads.length + 1 ∧
    stOneUser.stats = none ∧
    (predict_web stOneUser ⟨some "fish.png", none, none⟩ 1 "ts_" 5 10 env_vision_down).1.stats
      = some ⟨1, 1, 1, 5⟩ := by
  exact ⟨rfl, rfl, rfl, rfl, rfl⟩
